import Mathlib

/-!
Verification development for the `vaders` sprite renderer.

The Rust source (src/main.rs, src/sprite.rs, src/input.rs) is shallowly
embedded below.  Machine `f32` scalars are modelled as rationals: every
operation the program performs on them (building translation / scaling /
orthographic matrices, matrix products, serializing a matrix into a GPU
buffer) is embedded entry by entry, exactly as the `nalgebra_glm`
functions the code calls compute them.  GPU objects (buffers, bind
groups, command encoders) are modelled by their observable contents: a
buffer is the sequence of scalar values last written to it, and a
command buffer is the list of recorded render-pass commands.
-/

namespace Vaders

/-- A 4x4 matrix of scalars, as `nalgebra_glm::Mat4`; field `mij` is the
entry at row `i`, column `j`. -/
structure Mat4 where
  m00 : ℚ
  m01 : ℚ
  m02 : ℚ
  m03 : ℚ
  m10 : ℚ
  m11 : ℚ
  m12 : ℚ
  m13 : ℚ
  m20 : ℚ
  m21 : ℚ
  m22 : ℚ
  m23 : ℚ
  m30 : ℚ
  m31 : ℚ
  m32 : ℚ
  m33 : ℚ
deriving DecidableEq

attribute [ext] Mat4

/-- `nalgebra_glm::Vec2`. -/
abbrev Vec2 := ℚ × ℚ

/-- `nalgebra_glm::Vec3`. -/
abbrev Vec3 := ℚ × ℚ × ℚ

/-- Matrix product (row-by-column), written out entrywise. -/
def mmul (a b : Mat4) : Mat4 where
  m00 := a.m00 * b.m00 + a.m01 * b.m10 + a.m02 * b.m20 + a.m03 * b.m30
  m01 := a.m00 * b.m01 + a.m01 * b.m11 + a.m02 * b.m21 + a.m03 * b.m31
  m02 := a.m00 * b.m02 + a.m01 * b.m12 + a.m02 * b.m22 + a.m03 * b.m32
  m03 := a.m00 * b.m03 + a.m01 * b.m13 + a.m02 * b.m23 + a.m03 * b.m33
  m10 := a.m10 * b.m00 + a.m11 * b.m10 + a.m12 * b.m20 + a.m13 * b.m30
  m11 := a.m10 * b.m01 + a.m11 * b.m11 + a.m12 * b.m21 + a.m13 * b.m31
  m12 := a.m10 * b.m02 + a.m11 * b.m12 + a.m12 * b.m22 + a.m13 * b.m32
  m13 := a.m10 * b.m03 + a.m11 * b.m13 + a.m12 * b.m23 + a.m13 * b.m33
  m20 := a.m20 * b.m00 + a.m21 * b.m10 + a.m22 * b.m20 + a.m23 * b.m30
  m21 := a.m20 * b.m01 + a.m21 * b.m11 + a.m22 * b.m21 + a.m23 * b.m31
  m22 := a.m20 * b.m02 + a.m21 * b.m12 + a.m22 * b.m22 + a.m23 * b.m32
  m23 := a.m20 * b.m03 + a.m21 * b.m13 + a.m22 * b.m23 + a.m23 * b.m33
  m30 := a.m30 * b.m00 + a.m31 * b.m10 + a.m32 * b.m20 + a.m33 * b.m30
  m31 := a.m30 * b.m01 + a.m31 * b.m11 + a.m32 * b.m21 + a.m33 * b.m31
  m32 := a.m30 * b.m02 + a.m31 * b.m12 + a.m32 * b.m22 + a.m33 * b.m32
  m33 := a.m30 * b.m03 + a.m31 * b.m13 + a.m32 * b.m23 + a.m33 * b.m33

/-- `nalgebra_glm::identity()`. -/
def identityMat : Mat4 where
  m00 := 1
  m01 := 0
  m02 := 0
  m03 := 0
  m10 := 0
  m11 := 1
  m12 := 0
  m13 := 0
  m20 := 0
  m21 := 0
  m22 := 1
  m23 := 0
  m30 := 0
  m31 := 0
  m32 := 0
  m33 := 1

/-- The homogeneous translation matrix by `v`: identity with `v` in the
fourth column. -/
def translationMat (v : Vec3) : Mat4 :=
  { identityMat with m03 := v.1, m13 := v.2.1, m23 := v.2.2 }

/-- The nonuniform scaling matrix by `v`: diagonal `(v.x, v.y, v.z, 1)`. -/
def scalingMat (v : Vec3) : Mat4 :=
  { identityMat with m00 := v.1, m11 := v.2.1, m22 := v.2.2 }

/-- `nalgebra_glm::translate(&m, &v)`: post-multiplies `m` by the
translation matrix of `v` (GLM semantics, `m * T(v)`). -/
def glmTranslate (m : Mat4) (v : Vec3) : Mat4 := mmul m (translationMat v)

/-- `nalgebra_glm::scale(&m, &v)`: post-multiplies `m` by the scaling
matrix of `v` (`m * S(v)`). -/
def glmScale (m : Mat4) (v : Vec3) : Mat4 := mmul m (scalingMat v)

/-- `nalgebra_glm::vec2_to_vec3(&v)` = `(v.x, v.y, 0)`. -/
def vec2_to_vec3 (v : Vec2) : Vec3 := (v.1, v.2, 0)

/-- Writing index 2 of a `Vec3`, as the source's `size[2] = 1.0`. -/
def setZ (v : Vec3) (z : ℚ) : Vec3 := (v.1, v.2.1, z)

/-- `bytemuck::cast_slice` on a `&Mat4`: the 16 scalar entries in
`nalgebra`'s column-major storage order. -/
def serializeMat (m : Mat4) : List ℚ :=
  [m.m00, m.m10, m.m20, m.m30,
   m.m01, m.m11, m.m21, m.m31,
   m.m02, m.m12, m.m22, m.m32,
   m.m03, m.m13, m.m23, m.m33]

theorem mmul_assoc (a b c : Mat4) : mmul (mmul a b) c = mmul a (mmul b c) := by
  ext <;> simp only [mmul] <;> ring

theorem mmul_identity_left (m : Mat4) : mmul identityMat m = m := by
  ext <;> simp [mmul, identityMat]

/-- A sprite: CPU-side model matrix plus the observable contents of its
GPU transform (model) uniform buffer (src/sprite.rs).  The texture view
and bind group created in `Sprite::new` carry no scalar state of their
own; the bind group permanently references the sprite's `model_buf`. -/
structure Sprite where
  model_mat : Mat4
  model_buf : List ℚ
deriving DecidableEq

/-- `Sprite::new` (src/sprite.rs lines 11-68): builds the model matrix as
identity, then `translate` by `vec2_to_vec3(pos)`, then `scale` by
`vec2_to_vec3(size)` with its z component overwritten by `1.0`; the new
uniform buffer is initialized with the serialized matrix
(`create_buffer_init` with `contents = cast_slice(&model_mat)`). -/
def Sprite.new (pos size : Vec2) : Sprite :=
  let pos3 := vec2_to_vec3 pos
  let size3 := setZ (vec2_to_vec3 size) 1
  let m0 := identityMat
  let m1 := glmTranslate m0 pos3
  let m2 := glmScale m1 size3
  { model_mat := m2, model_buf := serializeMat m2 }

/-- `Sprite::move_by` (src/sprite.rs lines 70-78): post-multiplies the
model matrix by the translation of `vec2_to_vec3(v)`, then immediately
writes the serialized updated matrix into the transform buffer
(`queue.write_buffer` at offset 0). -/
def Sprite.move_by (s : Sprite) (v : Vec2) : Sprite :=
  let v3 := vec2_to_vec3 v
  let m := glmTranslate s.model_mat v3
  { s with model_mat := m, model_buf := serializeMat m }

/-- The CPU-side vertex type (src/main.rs lines 19-24): a `[f32; 2]`
position followed by a `[f32; 2]` texture coordinate, `repr(C)`, so a
vertex occupies 16 tightly packed bytes. -/
structure Vertex where
  pos : Vec2
  tex_coord : Vec2
deriving DecidableEq

/-- `size_of::<f32>()` in bytes. -/
def f32Size : ℕ := 4

/-- `size_of::<Vertex>()` in bytes: four tightly packed `f32` fields. -/
def vertexByteSize : ℕ := 4 * f32Size

/-- `VERTICES` (src/main.rs lines 39-46): the six vertices of the unit
quad, texture coordinates mirroring positions. -/
def VERTICES : List Vertex :=
  [{ pos := (0, 1), tex_coord := (0, 1) },
   { pos := (1, 1), tex_coord := (1, 1) },
   { pos := (0, 0), tex_coord := (0, 0) },
   { pos := (0, 0), tex_coord := (0, 0) },
   { pos := (1, 0), tex_coord := (1, 0) },
   { pos := (1, 1), tex_coord := (1, 1) }]

/-- The two `wgpu::VertexFormat`s the pipeline declaration uses. -/
inductive VertexFormat where
  | Float32x2
  | Float32x3
deriving DecidableEq

/-- Byte size of a vertex format. -/
def VertexFormat.byteSize : VertexFormat → ℕ
  | .Float32x2 => 2 * f32Size
  | .Float32x3 => 3 * f32Size

/-- `wgpu::VertexAttribute`. -/
structure VertexAttribute where
  format : VertexFormat
  offset : ℕ
  shader_location : ℕ
deriving DecidableEq

/-- `wgpu::VertexBufferLayout` (step mode is per-vertex in the source). -/
structure VertexBufferLayout where
  array_stride : ℕ
  attributes : List VertexAttribute
deriving DecidableEq

/-- The `vertex_buffers` array passed to `create_render_pipeline`
(src/main.rs lines 168-183): stride `4 * size_of::<f32>()`, attribute 0
`Float32x2` at offset 0, attribute 1 `Float32x3` at offset
`2 * size_of::<f32>()`. -/
def vertex_buffers : List VertexBufferLayout :=
  [{ array_stride := 4 * f32Size,
     attributes :=
       [{ format := VertexFormat.Float32x2, offset := 0, shader_location := 0 },
        { format := VertexFormat.Float32x3, offset := 2 * f32Size, shader_location := 1 }] }]

/-- `winit::event::ElementState`. -/
inductive ElementState where
  | Pressed
  | Released
deriving DecidableEq

set_option maxRecDepth 8192 in
/-- `winit::keyboard::KeyCode` (winit 0.29/0.30), the external key-code
enum used by src/input.rs; the variants are listed in winit's declaration
order, so Rust's `key as usize` discriminant of a variant is its
constructor index here. -/
inductive KeyCode where
  | Backquote | Backslash | BracketLeft | BracketRight | Comma | Digit0
  | Digit1 | Digit2 | Digit3 | Digit4 | Digit5 | Digit6
  | Digit7 | Digit8 | Digit9 | Equal | IntlBackslash | IntlRo
  | IntlYen | KeyA | KeyB | KeyC | KeyD | KeyE
  | KeyF | KeyG | KeyH | KeyI | KeyJ | KeyK
  | KeyL | KeyM | KeyN | KeyO | KeyP | KeyQ
  | KeyR | KeyS | KeyT | KeyU | KeyV | KeyW
  | KeyX | KeyY | KeyZ | Minus | Period | Quote
  | Semicolon | Slash | AltLeft | AltRight | Backspace | CapsLock
  | ContextMenu | ControlLeft | ControlRight | Enter | SuperLeft | SuperRight
  | ShiftLeft | ShiftRight | Space | Tab | Convert | KanaMode
  | Lang1 | Lang2 | Lang3 | Lang4 | Lang5 | NonConvert
  | Delete | End | Help | Home | Insert | PageDown
  | PageUp | ArrowDown | ArrowLeft | ArrowRight | ArrowUp | NumLock
  | Numpad0 | Numpad1 | Numpad2 | Numpad3 | Numpad4 | Numpad5
  | Numpad6 | Numpad7 | Numpad8 | Numpad9 | NumpadAdd | NumpadBackspace
  | NumpadClear | NumpadClearEntry | NumpadComma | NumpadDecimal | NumpadDivide | NumpadEnter
  | NumpadEqual | NumpadHash | NumpadMemoryAdd | NumpadMemoryClear | NumpadMemoryRecall | NumpadMemoryStore
  | NumpadMemorySubtract | NumpadMultiply | NumpadParenLeft | NumpadParenRight | NumpadStar | NumpadSubtract
  | Escape | Fn | FnLock | PrintScreen | ScrollLock | Pause
  | BrowserBack | BrowserFavorites | BrowserForward | BrowserHome | BrowserRefresh | BrowserSearch
  | BrowserStop | Eject | LaunchApp1 | LaunchApp2 | LaunchMail | MediaPlayPause
  | MediaSelect | MediaStop | MediaTrackNext | MediaTrackPrevious | Power | Sleep
  | AudioVolumeDown | AudioVolumeMute | AudioVolumeUp | WakeUp | Meta | Hyper
  | Turbo | Abort | Resume | Suspend | Again | Copy
  | Cut | Find | Open | Paste | Props | Select
  | Undo | Hiragana | Katakana | F1 | F2 | F3
  | F4 | F5 | F6 | F7 | F8 | F9
  | F10 | F11 | F12 | F13 | F14 | F15
  | F16 | F17 | F18 | F19 | F20 | F21
  | F22 | F23 | F24 | F25 | F26 | F27
  | F28 | F29 | F30 | F31 | F32 | F33
  | F34 | F35
deriving DecidableEq, Fintype

/-- `key as usize`: the enum discriminant, i.e. the declaration index. -/
def keyIndex (k : KeyCode) : Nat := KeyCode.toCtorIdx k

/-- The initial contents of the `KEYS` table (src/input.rs line 3):
256 booleans, all false. -/
def KEYS_init : List Bool := List.replicate 256 false

/-- `register_key_state` (src/input.rs lines 5-12): stores true on
`Pressed` and false on `Released` at index `key as usize` of the table.
(`List.set` is a no-op out of bounds where Rust would panic; the index is
always in bounds — see `keyIndex_lt`.) -/
def register_key_state (keys : List Bool) (key : KeyCode) (state : ElementState) : List Bool :=
  keys.set (keyIndex key)
    (match state with
     | ElementState.Pressed => true
     | ElementState.Released => false)

/-- `is_key_pressed` (src/input.rs lines 14-16): reads the table at index
`key as usize`.  (`List.getD` returns false out of bounds where Rust
would panic; the index is always in bounds.) -/
def is_key_pressed (keys : List Bool) (key : KeyCode) : Bool :=
  keys.getD (keyIndex key) false

set_option maxRecDepth 8192 in
/-- Every key-code discriminant is within the 256-entry table. -/
theorem keyIndex_lt : ∀ k : KeyCode, keyIndex k < 256 := by
  decide

/-- `wgpu::SurfaceConfiguration`.  The non-numeric wgpu fields
(`TextureUsages`, `TextureFormat`, `PresentMode`, `CompositeAlphaMode`)
are opaque to this program's logic and are modelled as natural-number
handles; `width` and `height` are the `u32` dimensions (clamping with
`max 1` cannot overflow, so plain naturals are faithful). -/
structure SurfaceConfiguration where
  usage : ℕ
  format : ℕ
  width : ℕ
  height : ℕ
  present_mode : ℕ
  desired_maximum_frame_latency : ℕ
  alpha_mode : ℕ
  view_formats : List ℕ
deriving DecidableEq

/-- `winit::dpi::PhysicalSize<u32>`. -/
structure PhysicalSize where
  width : ℕ
  height : ℕ
deriving DecidableEq

/-- `Surface::resize` (src/main.rs lines 303-310): sets the
configuration's width and height to the requested dimensions clamped to
a minimum of 1 (`size.width.max(1)`, `size.height.max(1)`), then
reconfigures the surface with the updated configuration; no other
configuration field is assigned. -/
def Surface.resize (config : SurfaceConfiguration) (size : PhysicalSize) : SurfaceConfiguration :=
  { config with width := size.width.max 1, height := size.height.max 1 }

/-- `nalgebra_glm::ortho` (the crate's default `ortho_rh_no`): the
right-handed orthographic projection with a -1..1 depth range, built as
identity with the four diagonal/column entries overwritten. -/
def ortho (left right bottom top znear zfar : ℚ) : Mat4 :=
  { identityMat with
      m00 := 2 / (right - left),
      m03 := -(right + left) / (right - left),
      m11 := 2 / (top - bottom),
      m13 := -(top + bottom) / (top - bottom),
      m22 := -2 / (zfar - znear),
      m23 := -(zfar + znear) / (zfar - znear) }

/-- `wgpu::Color` (the clear color; `f64` components as rationals). -/
structure Color where
  r : ℚ
  g : ℚ
  b : ℚ
  a : ℚ
deriving DecidableEq

/-- `wgpu::LoadOp` for the color attachment. -/
inductive LoadOp where
  | Clear (c : Color)
  | Load
deriving DecidableEq

/-- Which bind group a `set_bind_group` call passes: the renderer's
projection bind group, or the bind group owned by a sprite
(`sprite.get_bind_group()`; a sprite's bind group is the one built in
`Sprite::new`, permanently tied to that sprite's transform buffer,
texture view and the shared sampler). -/
inductive BindGroupRef where
  | proj
  | sprite (s : Sprite)
deriving DecidableEq

/-- One recorded render-pass command. `draw a b c d` is
`draw(a..b, c..d)` (vertex range, instance range). -/
inductive RenderCommand where
  | setPipeline
  | setVertexBuffer (slot : ℕ)
  | setBindGroup (index : ℕ) (group : BindGroupRef)
  | draw (vertexStart vertexStop instanceStart instanceStop : ℕ)
deriving DecidableEq

/-- One render pass as recorded on the command encoder: the color
attachment's load operation and store flag (`StoreOp::Store`), and the
commands recorded inside the pass. -/
structure RenderPassRecord where
  load : LoadOp
  store : Bool
  commands : List RenderCommand
deriving DecidableEq

/-- A finished `wgpu::CommandBuffer`: the render passes it recorded. -/
abbrev CommandBuffer := List RenderPassRecord

/-- The renderer's persistent state (src/main.rs lines 90-95), by buffer
contents: the static vertex buffer and the projection uniform buffer.
The pipeline and bind-group objects carry no scalar state. -/
structure Renderer where
  vertex_buf : List Vertex
  proj_buf : List ℚ
deriving DecidableEq

set_option linter.unusedVariables false in
/-- `Renderer::init` (src/main.rs lines 98-233): uploads `VERTICES` into
the vertex buffer and the serialized `nalgebra_glm::ortho(0, 229, 0,
190, -1, 1)` matrix into the projection uniform buffer
(`create_buffer_init`, src/main.rs lines 210-216).  The surface
configuration only selects the color-target format and contributes no
modelled state. -/
def Renderer.init (config : SurfaceConfiguration) : Renderer :=
  let proj_mat := ortho 0 229 0 190 (-1) 1
  { vertex_buf := VERTICES, proj_buf := serializeMat proj_mat }

/-- `Renderer::render` (src/main.rs lines 235-272): creates one command
encoder, records a single render pass whose color attachment clears the
target to `(0.2, 0.2, 0.2, 1.0)` and stores, sets the pipeline, the
vertex buffer at slot 0 and the projection bind group at index 0, then
for each sprite in order sets that sprite's bind group at index 1 and
draws vertices `0..VERTICES.len()`, instances `0..1`; finally submits
the single finished command buffer to the queue.  The renderer itself is
not mutated (`&mut self` with no field assignment), so the function
returns the unchanged renderer together with the submitted command
buffers. -/
def Renderer.render (r : Renderer) (sprites : List Sprite) : Renderer × List CommandBuffer :=
  let pass : RenderPassRecord :=
    { load := LoadOp.Clear { r := 0.2, g := 0.2, b := 0.2, a := 1.0 },
      store := true,
      commands :=
        [RenderCommand.setPipeline,
         RenderCommand.setVertexBuffer 0,
         RenderCommand.setBindGroup 0 BindGroupRef.proj]
        ++ sprites.flatMap (fun s =>
            [RenderCommand.setBindGroup 1 (BindGroupRef.sprite s),
             RenderCommand.draw 0 VERTICES.length 0 1]) }
  (r, [[pass]])

theorem KEYS_init_length : KEYS_init.length = 256 := by
  simp only [KEYS_init, List.length_replicate]

theorem getD_replicate_false : ∀ (n i : ℕ), (List.replicate n false).getD i false = false := by
  intro n
  induction n with
  | zero => intro i; rfl
  | succ n ih =>
    intro i
    cases i with
    | zero => rfl
    | succ i =>
      rw [List.replicate_succ, List.getD_cons_succ]
      exact ih i

/-- C1: after `Sprite::new` and after every sequence of `move_by` calls,
the contents of the sprite's transform (model) buffer are exactly the
serialization of the sprite's current model matrix: `move_by` writes the
updated entries immediately, so the buffer is never stale relative to
`model_mat` when the call returns. -/
theorem C1_transform_buffer_sync (pos size : Vec2) (ds : List Vec2) :
    (ds.foldl Sprite.move_by (Sprite.new pos size)).model_buf
      = serializeMat (ds.foldl Sprite.move_by (Sprite.new pos size)).model_mat := by
  have step : ∀ (s : Sprite) (l : List Vec2),
      s.model_buf = serializeMat s.model_mat →
      (l.foldl Sprite.move_by s).model_buf
        = serializeMat (l.foldl Sprite.move_by s).model_mat := by
    intro s l
    induction l generalizing s with
    | nil => intro h; exact h
    | cons d l ih => intro _; exact ih _ rfl
  exact step _ _ rfl

/-- C2: `Renderer::render`, for every renderer state and ordered sprite
list (the target view carries no recorded state), submits exactly one
command buffer holding exactly one render pass that clears the target to
color `(0.2, 0.2, 0.2, 1.0)` and stores, binds the pipeline, the static
vertex buffer and the projection bind group at index 0, then for each
sprite in input order binds that sprite's bind group at index 1 and
issues one draw of vertices `0..6`, instances `0..1`. -/
theorem C2_render_commands (r : Renderer) (sprites : List Sprite) :
    (Renderer.render r sprites).2 =
      [[{ load := LoadOp.Clear { r := 0.2, g := 0.2, b := 0.2, a := 1.0 },
          store := true,
          commands :=
            [RenderCommand.setPipeline,
             RenderCommand.setVertexBuffer 0,
             RenderCommand.setBindGroup 0 BindGroupRef.proj]
            ++ sprites.flatMap (fun s =>
                [RenderCommand.setBindGroup 1 (BindGroupRef.sprite s),
                 RenderCommand.draw 0 6 0 1]) }]] := rfl

/-- C3: `move_by d1` followed by `move_by d2` post-multiplies the
original model matrix by the single composed translation
`T(d1) * T(d2)`: repeated calls compose in local-frame order rather than
reset. -/
theorem C3_move_by_composes (s : Sprite) (d1 d2 : Vec2) :
    ((s.move_by d1).move_by d2).model_mat
      = mmul s.model_mat
          (mmul (translationMat (vec2_to_vec3 d1)) (translationMat (vec2_to_vec3 d2))) := by
  simp [Sprite.move_by, glmTranslate, mmul_assoc]

/-- C4 (code bug): the pipeline's vertex buffer layout declares a stride
of 16 bytes with attribute 0 a 2-float position at offset 0 but
attribute 1 a THREE-float `Float32x3` at offset 8, which extends 4 bytes
past the declared stride and past the 16-byte CPU-side `Vertex` (whose
`tex_coord` is `[f32; 2]`), contradicting the claim's (and the data's)
2-float texture coordinate. -/
theorem C4_vertex_attribute_overflow :
    vertex_buffers =
      [{ array_stride := 16,
         attributes :=
           [{ format := VertexFormat.Float32x2, offset := 0, shader_location := 0 },
            { format := VertexFormat.Float32x3, offset := 8, shader_location := 1 }] }]
    ∧ VertexFormat.byteSize VertexFormat.Float32x3 = 12
    ∧ 8 + VertexFormat.byteSize VertexFormat.Float32x3 > 16
    ∧ vertexByteSize = 16 := by
  refine ⟨rfl, rfl, ?_, rfl⟩
  decide

/-- C5: `Surface::resize` sets the configuration's width and height to
the requested dimensions clamped to a minimum of 1; requesting `0 x 0`
yields `1 x 1`, and the resulting dimensions are never zero. -/
theorem C5_resize_clamps (config : SurfaceConfiguration) (size : PhysicalSize) :
    (Surface.resize config size).width = size.width.max 1
    ∧ (Surface.resize config size).height = size.height.max 1
    ∧ (Surface.resize config { width := 0, height := 0 }).width = 1
    ∧ (Surface.resize config { width := 0, height := 0 }).height = 1
    ∧ (Surface.resize config size).width ≠ 0
    ∧ (Surface.resize config size).height ≠ 0 := by
  refine ⟨rfl, rfl, rfl, rfl, ?_, ?_⟩ <;> simp [Surface.resize]

/-- C6: `Sprite::new` composes the initial model matrix as
`translate(position.x, position.y, 0) * scale(size.x, size.y, 1)`; in
particular the sprite at position `(30, 30)` with size `(13, 8)` (the
one built in `main`) starts with model matrix
`translate(30, 30, 0) * scale(13, 8, 1)`. -/
theorem C6_initial_model_matrix :
    (∀ pos size : Vec2,
      (Sprite.new pos size).model_mat
        = mmul (translationMat (pos.1, pos.2, 0)) (scalingMat (size.1, size.2, 1)))
    ∧ (Sprite.new (30, 30) (13, 8)).model_mat
        = mmul (translationMat (30, 30, 0)) (scalingMat (13, 8, 1)) := by
  have general : ∀ pos size : Vec2,
      (Sprite.new pos size).model_mat
        = mmul (translationMat (pos.1, pos.2, 0)) (scalingMat (size.1, size.2, 1)) := by
    intro pos size
    simp [Sprite.new, glmTranslate, glmScale, mmul_identity_left, vec2_to_vec3, setZ]
  exact ⟨general, general (30, 30) (13, 8)⟩

/-- C7: the projection uniform buffer created by `Renderer::init` holds
the serialized orthographic matrix for extent left 0, right 229,
bottom 0, top 190, near -1, far 1 (concretely: diagonal
`(2/229, 1/95, -1, 1)` with fourth column `(-1, -1, 0, 1)`), and
`Renderer::render` — the only operation on the renderer after
construction — leaves the renderer's state, in particular `proj_buf`,
unchanged. -/
theorem C7_projection_fixed (config : SurfaceConfiguration) :
    (Renderer.init config).proj_buf = serializeMat (ortho 0 229 0 190 (-1) 1)
    ∧ ortho 0 229 0 190 (-1) 1
        = { identityMat with m00 := 2/229, m11 := 1/95, m22 := -1,
                             m03 := -1, m13 := -1, m23 := 0 }
    ∧ ∀ (r : Renderer) (sprites : List Sprite), (Renderer.render r sprites).1 = r := by
  refine ⟨rfl, ?_, fun r sprites => rfl⟩
  ext <;> norm_num [ortho, identityMat]

/-- C8: for every key code, registering `Pressed` then reading returns
true and registering `Released` then reading returns false (on any
256-entry table state, the size the `KEYS` table always has), and on the
initial table every key reads false. -/
theorem C8_key_state :
    (∀ (keys : List Bool) (k : KeyCode), keys.length = 256 →
        is_key_pressed (register_key_state keys k ElementState.Pressed) k = true
        ∧ is_key_pressed (register_key_state keys k ElementState.Released) k = false)
    ∧ (∀ k : KeyCode, is_key_pressed KEYS_init k = false) := by
  constructor
  · intro keys k h
    have hk : keyIndex k < keys.length := by
      rw [h]; exact keyIndex_lt k
    constructor
    · simp [is_key_pressed, register_key_state, List.getD_eq_getElem?_getD,
        List.getElem?_set_self, hk]
    · simp [is_key_pressed, register_key_state, List.getD_eq_getElem?_getD,
        List.getElem?_set_self, hk]
  · intro k
    exact getD_replicate_false 256 (keyIndex k)

theorem C8_key_state_witness :
    is_key_pressed (register_key_state KEYS_init KeyCode.ArrowRight ElementState.Pressed)
        KeyCode.ArrowRight = true
    ∧ is_key_pressed (register_key_state KEYS_init KeyCode.ArrowLeft ElementState.Released)
        KeyCode.ArrowLeft = false :=
  ⟨(C8_key_state.1 KEYS_init KeyCode.ArrowRight KEYS_init_length).1,
   (C8_key_state.1 KEYS_init KeyCode.ArrowLeft KEYS_init_length).2⟩

/-- C9: every `winit` key code's discriminant (`key as usize`) is
strictly below 256, the length of the `KEYS` table, so neither
`register_key_state` nor `is_key_pressed` can index out of bounds. -/
theorem C9_keycode_index_in_bounds : ∀ k : KeyCode, keyIndex k < KEYS_init.length := by
  intro k
  have h := keyIndex_lt k
  rwa [KEYS_init_length]

/-- C10: `Surface::resize` modifies only the width and height of the
surface configuration; format, present mode, usage, alpha mode, view
formats (and the frame-latency field) are unchanged. -/
theorem C10_resize_preserves_rest (config : SurfaceConfiguration) (size : PhysicalSize) :
    (Surface.resize config size).format = config.format
    ∧ (Surface.resize config size).present_mode = config.present_mode
    ∧ (Surface.resize config size).usage = config.usage
    ∧ (Surface.resize config size).alpha_mode = config.alpha_mode
    ∧ (Surface.resize config size).view_formats = config.view_formats
    ∧ (Surface.resize config size).desired_maximum_frame_latency
        = config.desired_maximum_frame_latency :=
  ⟨rfl, rfl, rfl, rfl, rfl, rfl⟩

end Vaders
